import Mathlib

/-
Shallow embedding of the clinic appointment chatbot's allocation/ledger
subsystem (mockData.js, database.js, index.js) and proofs of the frozen
claims about it.  JS Date values are modelled as calendar dates (the code
only ever uses getDay(), toISOString().split('T')[0], getDate()/setDate()
and the year/month/day constructor, all date-only).  Strings compare
lexicographically exactly as in JS for the ASCII data used here.
-/

namespace Clinica

/-- A calendar date, modelling the date-only content of a JS `Date`. -/
structure CalDate where
  year : Nat
  month : Nat
  day : Nat
deriving DecidableEq

/-- Gregorian leap-year rule, as implemented by the JS `Date` calendar. -/
def isLeap (y : Nat) : Bool :=
  (y % 4 == 0 && y % 100 != 0) || y % 400 == 0

/-- Number of days of month `m` of year `y` in the JS `Date` (proleptic
Gregorian) calendar; `new Date(y, m, 0).getDate()` returns exactly this
for `1 ≤ m ≤ 12` (JS months are 0-indexed, so day 0 of month index `m`
is the last day of calendar month `m`). -/
def daysInMonth (y m : Nat) : Nat :=
  if m = 2 then (if isLeap y then 29 else 28)
  else if m = 4 ∨ m = 6 ∨ m = 9 ∨ m = 11 then 30
  else 31

/-- Days of year `y` strictly before month `m` (months `1..12`). -/
def daysBeforeMonth (y m : Nat) : Nat :=
  match m with
  | 1 => 0
  | 2 => 31
  | 3 => 31 + daysInMonth y 2
  | 4 => 62 + daysInMonth y 2
  | 5 => 92 + daysInMonth y 2
  | 6 => 123 + daysInMonth y 2
  | 7 => 153 + daysInMonth y 2
  | 8 => 184 + daysInMonth y 2
  | 9 => 215 + daysInMonth y 2
  | 10 => 245 + daysInMonth y 2
  | 11 => 276 + daysInMonth y 2
  | 12 => 306 + daysInMonth y 2
  | _ => 0

/-- Rata-die day number (0001-01-01 has number 1, and was a Monday). -/
def rataDie (d : CalDate) : Nat :=
  365 * (d.year - 1) + ((d.year - 1) / 4 - (d.year - 1) / 100 + (d.year - 1) / 400)
    + daysBeforeMonth d.year d.month + d.day

/-- Model of JS `Date.prototype.getDay` (0 = Sunday, ..., 6 = Saturday):
since rata die 1 is a Monday, the weekday is the day number mod 7. -/
def getDay (d : CalDate) : Nat := rataDie d % 7

/-- The date is a real calendar date (month 1..12, day within the month). -/
def validDate (d : CalDate) : Prop :=
  1 ≤ d.month ∧ d.month ≤ 12 ∧ 1 ≤ d.day ∧ d.day ≤ daysInMonth d.year d.month

instance (d : CalDate) : Decidable (validDate d) := by
  unfold validDate; exact inferInstance

/-- Lexicographic char-list comparison underlying `jsLeString`. -/
def leCharList (a b : List Char) : Bool :=
  match a, b with
  | [], _ => true
  | _ :: _, [] => false
  | c :: cs, d :: ds => if c = d then leCharList cs ds else decide (c < d)

/-- Model of the JS `<=` operator on strings: lexicographic comparison of
the code units (identical to code-point order on the ASCII data used). -/
def jsLeString (a b : String) : Bool := leCharList a.data b.data

/-- Model of JS `String.prototype.split('-')`, on the char list. -/
def splitDashCharList (l : List Char) : List (List Char) :=
  match l with
  | [] => [[]]
  | c :: cs =>
    let r := splitDashCharList cs
    if c = '-' then [] :: r
    else
      match r with
      | [] => [[c]]
      | h :: t => (c :: h) :: t

/-- Model of JS `mesString.split('-')`. -/
def jsSplitDash (s : String) : List String := (splitDashCharList s.data).map String.mk

/-- Helper for `jsToNat`: left-to-right digit accumulation. -/
def natOfDigitsAux (acc : Nat) : List Char → Option Nat
  | [] => some acc
  | c :: cs =>
    if '0' ≤ c ∧ c ≤ '9' then natOfDigitsAux (acc * 10 + (c.toNat - '0'.toNat)) cs
    else none

/-- Model of the JS numeric coercion `Number(s)` applied by the
`new Date(year, month, 0)` constructor to the year/month strings, for
the decimal-digit strings produced by a `YYYY-MM` split (`none` models
`NaN`, which never occurs for well-formed input). -/
def jsToNat (s : String) : Option Nat :=
  match s.data with
  | [] => none
  | l => natOfDigitsAux 0 l

/-- Model of JS `String.prototype.padStart`. -/
def padStart (s : String) (n : Nat) (c : Char) : String :=
  String.mk (List.replicate (n - s.length) c) ++ s

/-- Model of `fecha.toISOString().split('T')[0]` and of
`toLocaleDateString('en-CA')`: the `YYYY-MM-DD` rendering of a date. -/
def isoOf (d : CalDate) : String :=
  padStart (toString d.year) 4 '0' ++ "-" ++ padStart (toString d.month) 2 '0'
    ++ "-" ++ padStart (toString d.day) 2 '0'

/-- A booking record (`solicitud`).  Only the fields inspected by the
store-layer queries are modelled; the remaining display fields
(names, payroll, department, message, time) are carried opaquely by the
code and never affect any modelled operation. -/
structure Solicitud where
  id : Nat := 0
  tipo_solicitud : String
  fecha_solicitud : String
  cedula : String := ""
  numero_turno : String := ""
deriving DecidableEq

/-- State of the in-memory mock backend (mockData.js): the `solicitudes`
array and the `idCounter`. -/
structure MockState where
  solicitudes : List Solicitud := []
  idCounter : Nat := 1
deriving DecidableEq

/-- The mock backend's `configuracion` literal, as a key lookup
(`configuracion[clave]`, `undefined` for absent keys). -/
def configuracion (clave : String) : Option Nat :=
  if clave = "cupos_consulta" then some 15
  else if clave = "cupos_consulta_miercoles" then some 10
  else if clave = "cupos_reembolso" then some 20
  else none

/-- Model of the JS `x || d` default: `undefined` (and the falsy `0`)
fall back to `d`. -/
def jsOrDefault (o : Option Nat) (d : Nat) : Nat :=
  match o with
  | none => d
  | some v => if v = 0 then d else v

/-- The capacity-limit key selected by `getCuposDisponibles`:
`cupos_<tipo>`, overridden to `cupos_consulta_miercoles` when the type is
`consulta` and the weekday is Wednesday (`getDay() === 3`). -/
def claveLimite (tipo : String) (diaSemana : Nat) : String :=
  if tipo = "consulta" ∧ diaSemana = 3 then "cupos_consulta_miercoles"
  else "cupos_" ++ tipo

/-- The family of request types counted for capacity:
`tipo === 'consulta' ? ['consulta', 'ecor'] : ['reembolso']`. -/
def tipoQueryDe (tipo : String) : List String :=
  if tipo = "consulta" then ["consulta", "ecor"] else ["reembolso"]

/-- The family of request types counted for ticket numbering:
`(prefijo === 'R') ? ['reembolso'] : ['consulta', 'ecor']`. -/
def turnoQueryDe (prefijo : String) : List String :=
  if prefijo = "R" then ["reembolso"] else ["consulta", "ecor"]

/-- mockData.js `getCuposDisponibles`: remaining capacity = configured
limit (with the `|| 15` default) minus the count of same-family records
on the date.  The `try` body is total, so the `catch` is unreachable. -/
def getCuposDisponibles (store : List Solicitud) (tipo : String) (fecha : CalDate) : Int :=
  let diaSemana := getDay fecha
  let limiteCupos := jsOrDefault (configuracion (claveLimite tipo diaSemana)) 15
  let fechaISO := isoOf fecha
  let tipoQuery := tipoQueryDe tipo
  let count := (store.filter fun s =>
    tipoQuery.contains s.tipo_solicitud && s.fecha_solicitud == fechaISO).length
  (limiteCupos : Int) - count

/-- mockData.js `getSiguienteNumeroTurno`: next ticket string for the
family of `prefijo` on the date; the `catch` is unreachable. -/
def getSiguienteNumeroTurno (store : List Solicitud) (prefijo : String) (fecha : CalDate) : String :=
  let fechaISO := isoOf fecha
  let tipoSolicitudQuery := turnoQueryDe prefijo
  let count := (store.filter fun s =>
    s.fecha_solicitud == fechaISO && tipoSolicitudQuery.contains s.tipo_solicitud).length
  prefijo ++ "-" ++ padStart (toString (count + 1)) 3 '0'

/-- mockData.js `crearSolicitud`: assign `idCounter` as id, push the
record, bump the counter.  (`created_at` is wall-clock data outside the
pure model.)  The `try` body is total, so the `catch` is unreachable. -/
def crearSolicitud (st : MockState) (datos : Solicitud) : Solicitud × MockState :=
  let nuevaSolicitud := { datos with id := st.idCounter }
  (nuevaSolicitud, ⟨st.solicitudes ++ [nuevaSolicitud], st.idCounter + 1⟩)

/-- mockData.js `getDatosReporteDiario`. -/
def getDatosReporteDiario (store : List Solicitud) (fechaString : String) : List Solicitud :=
  store.filter fun s => s.fecha_solicitud == fechaString

/-- mockData.js `getDatosReporteMensual`: filter the records whose date
string lies between `<mes>-01` and `<mes>-<lastDay>` inclusive, where
`lastDay = new Date(year, month, 0).getDate()` (see `daysInMonth`). -/
def getDatosReporteMensual (store : List Solicitud) (mesString : String) : List Solicitud :=
  let startDate := mesString ++ "-01"
  let parts := jsSplitDash mesString
  let year := (jsToNat (parts.getD 0 "")).getD 0
  let month := (jsToNat (parts.getD 1 "")).getD 0
  let lastDay := daysInMonth year month
  let endDate := mesString ++ "-" ++ toString lastDay
  store.filter fun s =>
    jsLeString startDate s.fecha_solicitud && jsLeString s.fecha_solicitud endDate

/-- mockData.js `checkExistingAppointment`: `find` a record of the
consulta/ecor family for the cedula on the date, coerced to Bool. -/
def checkExistingAppointment (store : List Solicitud) (cedula : String) (fecha : CalDate) : Bool :=
  let fechaISO := isoOf fecha
  (store.find? fun s =>
    s.cedula == cedula && s.fecha_solicitud == fechaISO &&
      (["consulta", "ecor"] : List String).contains s.tipo_solicitud).isSome

/-- State of the durable (Supabase) backend of database.js: the
`solicitudes` table, the `configuracion` table (key to integer value),
the serial id the next insert will receive, and a fault flag modelling a
backend in which every query fails (the `StoreError` situation). -/
structure DbState where
  solicitudes : List Solicitud := []
  config : String → Option Nat := configuracion
  nextId : Nat := 1
  fault : Bool := false

/-- database.js (Supabase branch) `getCuposDisponibles`: a failing
config or count query is thrown and caught, returning 0; a missing
config row makes `.single()` error, likewise returning 0. -/
def getCuposDisponiblesDb (db : DbState) (tipo : String) (fecha : CalDate) : Int :=
  if db.fault then 0
  else
    match db.config (claveLimite tipo (getDay fecha)) with
    | none => 0
    | some limiteCupos =>
      let fechaISO := isoOf fecha
      let tipoQuery := tipoQueryDe tipo
      let count := (db.solicitudes.filter fun s =>
        tipoQuery.contains s.tipo_solicitud && s.fecha_solicitud == fechaISO).length
      (limiteCupos : Int) - count

/-- database.js (Supabase branch) `getSiguienteNumeroTurno`: a failing
count query is caught and `null` is returned. -/
def getSiguienteNumeroTurnoDb (db : DbState) (prefijo : String) (fecha : CalDate) : Option String :=
  if db.fault then none
  else
    let fechaISO := isoOf fecha
    let tipoSolicitudQuery := turnoQueryDe prefijo
    let count := (db.solicitudes.filter fun s =>
      s.fecha_solicitud == fechaISO && tipoSolicitudQuery.contains s.tipo_solicitud).length
    some (prefijo ++ "-" ++ padStart (toString (count + 1)) 3 '0')

/-- database.js (Supabase branch): the raw `supabase.from('solicitudes')
.insert(...)` call inside `crearSolicitud`, before the `catch`: it either
persists the record (with the serial id) or fails with a store error. -/
def insertSolicitudDb (db : DbState) (datos : Solicitud) : Except String (Solicitud × DbState) :=
  if db.fault then Except.error "StoreError"
  else
    let nueva := { datos with id := db.nextId }
    Except.ok (nueva, { db with solicitudes := db.solicitudes ++ [nueva], nextId := db.nextId + 1 })

/-- database.js (Supabase branch) `crearSolicitud`: the insert error is
caught, logged and converted to `null`; only the data survives. -/
def crearSolicitudDb (db : DbState) (datos : Solicitud) : Option Solicitud × DbState :=
  match insertSolicitudDb db datos with
  | Except.ok (data, db2) => (some data, db2)
  | Except.error _ => (none, db)

/-- database.js (Supabase branch) `getDatosReporteDiario` (errors are
caught, returning `[]`). -/
def getDatosReporteDiarioDb (db : DbState) (fechaString : String) : List Solicitud :=
  if db.fault then []
  else db.solicitudes.filter fun s => s.fecha_solicitud == fechaString

/-- database.js (Supabase branch) `getDatosReporteMensual` (errors are
caught, returning `[]`). -/
def getDatosReporteMensualDb (db : DbState) (mesString : String) : List Solicitud :=
  if db.fault then []
  else
    let startDate := mesString ++ "-01"
    let parts := jsSplitDash mesString
    let year := (jsToNat (parts.getD 0 "")).getD 0
    let month := (jsToNat (parts.getD 1 "")).getD 0
    let lastDay := daysInMonth year month
    let endDate := mesString ++ "-" ++ toString lastDay
    db.solicitudes.filter fun s =>
      jsLeString startDate s.fecha_solicitud && jsLeString s.fecha_solicitud endDate

/-- database.js (Supabase branch) `checkExistingAppointment`: the
`.maybeSingle()` query yields the row or `null`, but errors when more
than one row matches; any error is caught, returning `false`. -/
def checkExistingAppointmentDb (db : DbState) (cedula : String) (fecha : CalDate) : Bool :=
  if db.fault then false
  else
    let fechaISO := isoOf fecha
    let encontrados := db.solicitudes.filter fun s =>
      s.cedula == cedula && s.fecha_solicitud == fechaISO &&
        (["consulta", "ecor"] : List String).contains s.tipo_solicitud
    if 2 ≤ encontrados.length then false
    else !encontrados.isEmpty

/-- index.js: model of `fecha.setDate(fecha.getDate() - k)` followed by
reading the date back, i.e. of JS `setDate` normalisation, for the
arguments this program produces (`k ≤ 3 ≤ 27 + day`), where a
non-positive day index borrows from the preceding month. -/
def jsSetDateSub (d : CalDate) (k : Nat) : CalDate :=
  if k < d.day then ⟨d.year, d.month, d.day - k⟩
  else if 1 < d.month then ⟨d.year, d.month - 1, daysInMonth d.year (d.month - 1) + d.day - k⟩
  else ⟨d.year - 1, 12, 31 + d.day - k⟩

/-- index.js `getReportDateString`: on Monday (`getDay() === 1`) report
3 days back, otherwise 1 day back, rendered as `YYYY-MM-DD`
(`toLocaleDateString('en-CA')`).  The current wall-clock date (`ahora`,
already normalised to the Caracas timezone by the adapter code) is the
explicit input of the model. -/
def getReportDateString (ahora : CalDate) : String :=
  let diaDeLaSemana := getDay ahora
  let fechaDelReporte := if diaDeLaSemana = 1 then jsSetDateSub ahora 3 else jsSetDateSub ahora 1
  isoOf fechaDelReporte

/-- The immediately preceding calendar day (specification-side notion
used to state what `getReportDateString` computes). -/
def prevDay (d : CalDate) : CalDate :=
  if 1 < d.day then ⟨d.year, d.month, d.day - 1⟩
  else if 1 < d.month then ⟨d.year, d.month - 1, daysInMonth d.year (d.month - 1)⟩
  else ⟨d.year - 1, 12, 31⟩

/-- Modelled from the spec: the Allocation Service caller
(messageHandler.js, which is not present under src/) rejects a booking
with `CapacityExceededError` exactly when the remaining capacity
reported by `getCuposDisponibles` is not positive. -/
def capacityRejected (cuposDisponibles : Int) : Bool := cuposDisponibles ≤ 0

/-- Modelled from the spec: a sequence of successful same-family
bookings on one date, as driven by the Allocation Service caller
(messageHandler.js, not present under src/) — each booking obtains its
ticket from `getSiguienteNumeroTurno` and appends its record to the
store exactly as `crearSolicitud` does.  Returns the assigned tickets in
booking order; `tipos` gives each booking's request type. -/
def bookingRun (store : List Solicitud) (prefijo : String) (fecha : CalDate) : List String → List String
  | [] => []
  | t :: ts =>
    let turno := getSiguienteNumeroTurno store prefijo fecha
    turno :: bookingRun
      (store ++ [{ tipo_solicitud := t, fecha_solicitud := isoOf fecha, numero_turno := turno }])
      prefijo fecha ts

end Clinica

namespace Clinica

/-- `find?` produces a result exactly when some element satisfies the
predicate (`!!existente` in the JS source). -/
theorem find?_isSome_eq_any (p : α → Bool) (l : List α) : (l.find? p).isSome = l.any p := by
  induction l with
  | nil => rfl
  | cons a t ih => cases h : p a <;> simp [List.find?_cons, h, ih]

theorem emergencia_not_tipoQuery (tipo : String) :
    (tipoQueryDe tipo).contains "emergencia" = false := by
  unfold tipoQueryDe; split <;> decide

theorem emergencia_not_turnoQuery (prefijo : String) :
    (turnoQueryDe prefijo).contains "emergencia" = false := by
  unfold turnoQueryDe; split <;> decide

/-- The duplicate-guard predicate holds exactly of a consulta/ecor
record with the given cedula and date. -/
theorem existingPred_iff (ced iso : String) (s : Solicitud) :
    (s.cedula == ced && s.fecha_solicitud == iso &&
        (["consulta", "ecor"] : List String).contains s.tipo_solicitud) = true ↔
      (s.cedula = ced ∧ s.fecha_solicitud = iso ∧
        (s.tipo_solicitud = "consulta" ∨ s.tipo_solicitud = "ecor")) := by
  simp only [Bool.and_eq_true, beq_iff_eq, List.contains_eq_any_beq, List.any_cons,
    List.any_nil, Bool.or_eq_true, Bool.or_false]
  tauto

/-- The in-memory `checkExistingAppointment` is true iff the store has a
record with that cedula, that date, and type `consulta` or `ecor`. -/
theorem checkExisting_mock_iff (store : List Solicitud) (ced : String) (fecha : CalDate) :
    checkExistingAppointment store ced fecha = true ↔
      ∃ s ∈ store, s.cedula = ced ∧ s.fecha_solicitud = isoOf fecha ∧
        (s.tipo_solicitud = "consulta" ∨ s.tipo_solicitud = "ecor") := by
  unfold checkExistingAppointment
  rw [find?_isSome_eq_any, List.any_eq_true]
  exact exists_congr fun s => and_congr_right fun _ => existingPred_iff ced (isoOf fecha) s

/-- C5: emergency records are invisible to the capacity count, the
ticket count and the duplicate guard. -/
theorem c5_emergencias_invisibles (store es : List Solicitud) (tipo prefijo ced : String)
    (fecha : CalDate) (h : ∀ e ∈ es, e.tipo_solicitud = "emergencia") :
    getCuposDisponibles (store ++ es) tipo fecha = getCuposDisponibles store tipo fecha ∧
    getSiguienteNumeroTurno (store ++ es) prefijo fecha = getSiguienteNumeroTurno store prefijo fecha ∧
    checkExistingAppointment (store ++ es) ced fecha = checkExistingAppointment store ced fecha := by
  refine ⟨?_, ?_, ?_⟩
  · simp only [getCuposDisponibles]
    have he : (es.filter fun s =>
        (tipoQueryDe tipo).contains s.tipo_solicitud && s.fecha_solicitud == isoOf fecha) = [] := by
      rw [List.filter_eq_nil_iff]
      intro e hee
      rw [h e hee, emergencia_not_tipoQuery]
      simp
    rw [List.filter_append, he, List.append_nil]
  · simp only [getSiguienteNumeroTurno]
    have he : (es.filter fun s =>
        s.fecha_solicitud == isoOf fecha && (turnoQueryDe prefijo).contains s.tipo_solicitud) = [] := by
      rw [List.filter_eq_nil_iff]
      intro e hee
      rw [h e hee, emergencia_not_turnoQuery]
      simp
    rw [List.filter_append, he, List.append_nil]
  · simp only [checkExistingAppointment]
    rw [find?_isSome_eq_any, find?_isSome_eq_any, List.any_append]
    have he : (es.any fun s =>
        s.cedula == ced && s.fecha_solicitud == isoOf fecha &&
          (["consulta", "ecor"] : List String).contains s.tipo_solicitud) = false := by
      rw [List.any_eq_false]
      intro e hee
      rw [h e hee]
      simp
    rw [he, Bool.or_false]

/-- C10: on a backend fault the duplicate guard reports `false` (fails
open) while the capacity check reports 0 remaining (fails closed). -/
theorem c10_fallo_abre_duplicado_cierra_cupos (db : DbState) (ced tipo : String)
    (fecha : CalDate) (hf : db.fault = true) :
    checkExistingAppointmentDb db ced fecha = false ∧ getCuposDisponiblesDb db tipo fecha = 0 := by
  unfold checkExistingAppointmentDb getCuposDisponiblesDb
  rw [hf]
  exact ⟨rfl, rfl⟩

theorem c10_witness :
    checkExistingAppointmentDb ⟨[], configuracion, 1, true⟩ "V123" ⟨2024, 1, 3⟩ = false ∧
    getCuposDisponiblesDb ⟨[], configuracion, 1, true⟩ "consulta" ⟨2024, 1, 3⟩ = 0 :=
  c10_fallo_abre_duplicado_cierra_cupos ⟨[], configuracion, 1, true⟩ "V123" "consulta" ⟨2024, 1, 3⟩ rfl

theorem c5_witness :
    (∀ e ∈ [(⟨0, "emergencia", "2024-01-03", "V1", ""⟩ : Solicitud)],
        e.tipo_solicitud = "emergencia") ∧
    (getCuposDisponibles ([] ++ [⟨0, "emergencia", "2024-01-03", "V1", ""⟩]) "consulta" ⟨2024, 1, 3⟩
      = getCuposDisponibles [] "consulta" ⟨2024, 1, 3⟩ ∧
    getSiguienteNumeroTurno ([] ++ [⟨0, "emergencia", "2024-01-03", "V1", ""⟩]) "C" ⟨2024, 1, 3⟩
      = getSiguienteNumeroTurno [] "C" ⟨2024, 1, 3⟩ ∧
    checkExistingAppointment ([] ++ [⟨0, "emergencia", "2024-01-03", "V1", ""⟩]) "V1" ⟨2024, 1, 3⟩
      = checkExistingAppointment [] "V1" ⟨2024, 1, 3⟩) :=
  ⟨by decide,
   c5_emergencias_invisibles [] [⟨0, "emergencia", "2024-01-03", "V1", ""⟩]
     "consulta" "C" "V1" ⟨2024, 1, 3⟩ (by decide)⟩

end Clinica

namespace Clinica

/-- C2: on a Wednesday the consultation family is limited by the lower
constant 10 instead of 15, remaining capacity is that limit minus the
count of consulta/ecor records on the date; with 9 records the next
booking finds positive capacity, with 10 it finds none and the caller
rejects it (`capacityRejected`, modelled from the spec). -/
theorem c2_cupos_miercoles (store : List Solicitud) (fecha : CalDate)
    (hW : getDay fecha = 3) :
    getCuposDisponibles store "consulta" fecha
        = 10 - ((store.filter fun s =>
            (["consulta", "ecor"] : List String).contains s.tipo_solicitud &&
              s.fecha_solicitud == isoOf fecha).length : Int) ∧
    ((store.filter fun s =>
        (["consulta", "ecor"] : List String).contains s.tipo_solicitud &&
          s.fecha_solicitud == isoOf fecha).length = 9 →
      0 < getCuposDisponibles store "consulta" fecha ∧
      capacityRejected (getCuposDisponibles store "consulta" fecha) = false) ∧
    ((store.filter fun s =>
        (["consulta", "ecor"] : List String).contains s.tipo_solicitud &&
          s.fecha_solicitud == isoOf fecha).length = 10 →
      getCuposDisponibles store "consulta" fecha ≤ 0 ∧
      capacityRejected (getCuposDisponibles store "consulta" fecha) = true) := by
  have hq : tipoQueryDe "consulta" = ["consulta", "ecor"] := by decide
  have hl : jsOrDefault (configuracion (claveLimite "consulta" 3)) 15 = 10 := by decide
  have h0 : getCuposDisponibles store "consulta" fecha
      = 10 - ((store.filter fun s =>
          (["consulta", "ecor"] : List String).contains s.tipo_solicitud &&
            s.fecha_solicitud == isoOf fecha).length : Int) := by
    simp only [getCuposDisponibles, hW, hl, hq]
    norm_cast
  refine ⟨h0, fun h9 => ?_, fun h10 => ?_⟩
  · rw [h0, h9]
    exact ⟨by norm_num, by unfold capacityRejected; norm_num⟩
  · rw [h0, h10]
    exact ⟨by norm_num, by unfold capacityRejected; norm_num⟩

theorem c2_witness :
    getDay ⟨2024, 1, 3⟩ = 3 ∧
    (getCuposDisponibles [] "consulta" ⟨2024, 1, 3⟩
        = 10 - ((([] : List Solicitud).filter fun s =>
            (["consulta", "ecor"] : List String).contains s.tipo_solicitud &&
              s.fecha_solicitud == isoOf ⟨2024, 1, 3⟩).length : Int) ∧
    ((([] : List Solicitud).filter fun s =>
        (["consulta", "ecor"] : List String).contains s.tipo_solicitud &&
          s.fecha_solicitud == isoOf ⟨2024, 1, 3⟩).length = 9 →
      0 < getCuposDisponibles [] "consulta" ⟨2024, 1, 3⟩ ∧
      capacityRejected (getCuposDisponibles [] "consulta" ⟨2024, 1, 3⟩) = false) ∧
    ((([] : List Solicitud).filter fun s =>
        (["consulta", "ecor"] : List String).contains s.tipo_solicitud &&
          s.fecha_solicitud == isoOf ⟨2024, 1, 3⟩).length = 10 →
      getCuposDisponibles [] "consulta" ⟨2024, 1, 3⟩ ≤ 0 ∧
      capacityRejected (getCuposDisponibles [] "consulta" ⟨2024, 1, 3⟩) = true)) :=
  ⟨by decide, c2_cupos_miercoles [] ⟨2024, 1, 3⟩ (by decide)⟩

/-- C3 counterexample: in the in-memory backend a missing capacity
configuration entry (here the key for request type `emergencia` on a
Thursday) does not yield zero remaining capacity — the `|| 15` default
substitutes the permissive limit 15. -/
theorem c3_counterexample :
    configuracion (claveLimite "emergencia" (getDay ⟨2024, 1, 4⟩)) = none ∧
    getCuposDisponibles [] "emergencia" ⟨2024, 1, 4⟩ = 15 ∧ (15 : Int) ≠ 0 := by
  refine ⟨by decide, by decide, by decide⟩

/-- C3 amended: only the durable backend fails closed — a missing
configuration row makes `getCuposDisponibles` return 0 remaining; the
in-memory backend instead substitutes the default limit 15 (`|| 15`)
and returns `15 - count`. -/
theorem c3_amended (db : DbState) (store : List Solicitud) (tipo : String) (fecha : CalDate)
    (hdb : db.config (claveLimite tipo (getDay fecha)) = none)
    (hmock : configuracion (claveLimite tipo (getDay fecha)) = none) :
    getCuposDisponiblesDb db tipo fecha = 0 ∧
    getCuposDisponibles store tipo fecha
      = 15 - ((store.filter fun s =>
          (tipoQueryDe tipo).contains s.tipo_solicitud &&
            s.fecha_solicitud == isoOf fecha).length : Int) := by
  constructor
  · unfold getCuposDisponiblesDb
    rw [hdb]
    cases hf : db.fault <;> simp [hf]
  · simp only [getCuposDisponibles, hmock]
    rfl

theorem c3_amended_witness :
    (⟨[], configuracion, 1, false⟩ : DbState).config
        (claveLimite "emergencia" (getDay ⟨2024, 1, 4⟩)) = none ∧
    configuracion (claveLimite "emergencia" (getDay ⟨2024, 1, 4⟩)) = none ∧
    (getCuposDisponiblesDb ⟨[], configuracion, 1, false⟩ "emergencia" ⟨2024, 1, 4⟩ = 0 ∧
    getCuposDisponibles [] "emergencia" ⟨2024, 1, 4⟩
      = 15 - ((([] : List Solicitud).filter fun s =>
          (tipoQueryDe "emergencia").contains s.tipo_solicitud &&
            s.fecha_solicitud == isoOf ⟨2024, 1, 4⟩).length : Int)) :=
  ⟨by decide, by decide,
   c3_amended ⟨[], configuracion, 1, false⟩ [] "emergencia" ⟨2024, 1, 4⟩ (by decide) (by decide)⟩

/-- C8 counterexample: when the backend insert fails with a store error,
`crearSolicitud` does not surface it — it is caught and converted into
the non-error result `null` (`none`). -/
theorem c8_counterexample :
    insertSolicitudDb ⟨[], configuracion, 1, true⟩ ⟨0, "consulta", "2024-01-03", "V123", "C-001"⟩
        = Except.error "StoreError" ∧
    (crearSolicitudDb ⟨[], configuracion, 1, true⟩
        ⟨0, "consulta", "2024-01-03", "V123", "C-001"⟩).1 = none :=
  ⟨rfl, rfl⟩

/-- C8 amended: `crearSolicitud` either returns the persisted record
with its assigned id (appending it to the store), or catches the backend
`StoreError` and returns `null` — the error is logged, not surfaced;
there is no third outcome.  The in-memory implementation never fails. -/
theorem c8_amended (db : DbState) (st : MockState) (datos : Solicitud) :
    (db.fault = false →
      (crearSolicitudDb db datos).1 = some { datos with id := db.nextId } ∧
      (crearSolicitudDb db datos).2.solicitudes
        = db.solicitudes ++ [{ datos with id := db.nextId }] ∧
      (crearSolicitudDb db datos).2.nextId = db.nextId + 1) ∧
    (db.fault = true → crearSolicitudDb db datos = (none, db)) ∧
    (crearSolicitud st datos).1 = { datos with id := st.idCounter } ∧
    (crearSolicitud st datos).2.solicitudes
      = st.solicitudes ++ [{ datos with id := st.idCounter }] ∧
    (crearSolicitud st datos).2.idCounter = st.idCounter + 1 := by
  refine ⟨fun hf => ?_, fun hf => ?_, rfl, rfl, rfl⟩
  · unfold crearSolicitudDb insertSolicitudDb
    rw [hf]
    exact ⟨rfl, rfl, rfl⟩
  · unfold crearSolicitudDb insertSolicitudDb
    rw [hf]
    rfl

theorem c8_amended_witness :
    ((⟨[], configuracion, 1, false⟩ : DbState).fault = false →
      (crearSolicitudDb ⟨[], configuracion, 1, false⟩ ⟨0, "consulta", "2024-01-03", "V1", "C-001"⟩).1
          = some { (⟨0, "consulta", "2024-01-03", "V1", "C-001"⟩ : Solicitud) with id := 1 } ∧
      (crearSolicitudDb ⟨[], configuracion, 1, false⟩ ⟨0, "consulta", "2024-01-03", "V1", "C-001"⟩).2.solicitudes
          = [] ++ [{ (⟨0, "consulta", "2024-01-03", "V1", "C-001"⟩ : Solicitud) with id := 1 }] ∧
      (crearSolicitudDb ⟨[], configuracion, 1, false⟩ ⟨0, "consulta", "2024-01-03", "V1", "C-001"⟩).2.nextId = 2) ∧
    ((⟨[], configuracion, 1, false⟩ : DbState).fault = true →
      crearSolicitudDb ⟨[], configuracion, 1, false⟩ ⟨0, "consulta", "2024-01-03", "V1", "C-001"⟩
        = (none, ⟨[], configuracion, 1, false⟩)) ∧
    (crearSolicitud ⟨[], 1⟩ ⟨0, "consulta", "2024-01-03", "V1", "C-001"⟩).1
        = { (⟨0, "consulta", "2024-01-03", "V1", "C-001"⟩ : Solicitud) with id := 1 } ∧
    (crearSolicitud ⟨[], 1⟩ ⟨0, "consulta", "2024-01-03", "V1", "C-001"⟩).2.solicitudes
        = [] ++ [{ (⟨0, "consulta", "2024-01-03", "V1", "C-001"⟩ : Solicitud) with id := 1 }] ∧
    (crearSolicitud ⟨[], 1⟩ ⟨0, "consulta", "2024-01-03", "V1", "C-001"⟩).2.idCounter = 2 :=
  c8_amended ⟨[], configuracion, 1, false⟩ ⟨[], 1⟩ ⟨0, "consulta", "2024-01-03", "V1", "C-001"⟩

end Clinica

namespace Clinica

/-- Appending one same-family same-date record raises the ticket count
by one. -/
theorem count_turno_append (store : List Solicitud) (prefijo : String) (fecha : CalDate)
    (r : Solicitud) (hrf : r.fecha_solicitud = isoOf fecha)
    (hrt : r.tipo_solicitud ∈ turnoQueryDe prefijo) :
    ((store ++ [r]).filter fun s =>
        s.fecha_solicitud == isoOf fecha &&
          (turnoQueryDe prefijo).contains s.tipo_solicitud).length
      = ((store.filter fun s =>
          s.fecha_solicitud == isoOf fecha &&
            (turnoQueryDe prefijo).contains s.tipo_solicitud).length) + 1 := by
  rw [List.filter_append, List.length_append]
  have hp : (r.fecha_solicitud == isoOf fecha &&
      (turnoQueryDe prefijo).contains r.tipo_solicitud) = true := by
    rw [hrf]
    simp only [beq_self_eq_true, Bool.true_and]
    exact List.elem_iff.mpr hrt
  simp only [List.filter_cons, hp, if_true, List.filter_nil, List.length_cons, List.length_nil]

/-- The run of tickets assigned by successive same-family bookings, when
the store already holds `N` matching records, is the gap-free zero-padded
sequence `N+1, N+2, ...`. -/
theorem bookingRun_tickets (prefijo : String) (fecha : CalDate) (tipos : List String) :
    ∀ (store : List Solicitud) (N : Nat),
      (store.filter fun s =>
        s.fecha_solicitud == isoOf fecha &&
          (turnoQueryDe prefijo).contains s.tipo_solicitud).length = N →
      (∀ t ∈ tipos, t ∈ turnoQueryDe prefijo) →
      bookingRun store prefijo fecha tipos
        = (List.range tipos.length).map fun i =>
            prefijo ++ "-" ++ padStart (toString (N + i + 1)) 3 '0' := by
  induction tipos with
  | nil => intro store N hN hts; rfl
  | cons t ts ih =>
    intro store N hN hts
    simp only [bookingRun]
    have hturno : getSiguienteNumeroTurno store prefijo fecha
        = prefijo ++ "-" ++ padStart (toString (N + 1)) 3 '0' := by
      simp only [getSiguienteNumeroTurno, hN]
    have hcount := count_turno_append store prefijo fecha
      { tipo_solicitud := t, fecha_solicitud := isoOf fecha,
        numero_turno := getSiguienteNumeroTurno store prefijo fecha }
      rfl (hts t (List.mem_cons_self t ts))
    rw [hN] at hcount
    have htail := ih _ (N + 1) hcount (fun t' ht' => hts t' (List.mem_cons_of_mem _ ht'))
    rw [htail, hturno, List.length_cons, List.range_succ_eq_map, List.map_cons, List.map_map]
    refine congrArg₂ _ (by norm_num) ?_
    refine List.map_congr_left fun i _ => ?_
    simp only [Function.comp_apply, Nat.succ_eq_add_one]
    rw [show N + 1 + i + 1 = N + (i + 1) + 1 from by omega]

/-- C1: with exactly `N` same-family records on the date, the next
ticket is `prefijo-<N+1 zero-padded to 3 digits>`, and a run of
successful same-family bookings yields the strictly increasing, gap-free
sequence `N+1, N+2, ...` — starting at `C-001`/`R-001` on an empty day. -/
theorem c1_turnos_secuenciales (store : List Solicitud) (prefijo : String) (fecha : CalDate)
    (N : Nat) (tipos : List String)
    (hN : (store.filter fun s =>
        s.fecha_solicitud == isoOf fecha &&
          (turnoQueryDe prefijo).contains s.tipo_solicitud).length = N)
    (hts : ∀ t ∈ tipos, t ∈ turnoQueryDe prefijo) :
    getSiguienteNumeroTurno store prefijo fecha
        = prefijo ++ "-" ++ padStart (toString (N + 1)) 3 '0' ∧
    bookingRun store prefijo fecha tipos
        = (List.range tipos.length).map fun i =>
            prefijo ++ "-" ++ padStart (toString (N + i + 1)) 3 '0' :=
  ⟨by simp only [getSiguienteNumeroTurno, hN], bookingRun_tickets prefijo fecha tipos store N hN hts⟩

theorem c1_witness :
    (([] : List Solicitud).filter fun s =>
        s.fecha_solicitud == isoOf ⟨2024, 1, 4⟩ &&
          (turnoQueryDe "C").contains s.tipo_solicitud).length = 0 ∧
    (∀ t ∈ ["consulta", "ecor", "consulta"], t ∈ turnoQueryDe "C") ∧
    (getSiguienteNumeroTurno [] "C" ⟨2024, 1, 4⟩
        = "C" ++ "-" ++ padStart (toString (0 + 1)) 3 '0' ∧
    bookingRun [] "C" ⟨2024, 1, 4⟩ ["consulta", "ecor", "consulta"]
        = (List.range (["consulta", "ecor", "consulta"] : List String).length).map fun i =>
            "C" ++ "-" ++ padStart (toString (0 + i + 1)) 3 '0') :=
  ⟨by decide, by decide,
   c1_turnos_secuenciales [] "C" ⟨2024, 1, 4⟩ 0 ["consulta", "ecor", "consulta"]
     (by decide) (by decide)⟩

/-- C6: the monthly report returns exactly the records whose date string
lies between the first day and the calendar-correct last day of the
month inclusive; for `"2024-02"` the range is `2024-02-01 .. 2024-02-29`
(leap year). -/
theorem c6_reporte_mensual (store : List Solicitud) (mes ys ms : String) (y m : Nat)
    (hsplit : jsSplitDash mes = [ys, ms])
    (hy : jsToNat ys = some y) (hm : jsToNat ms = some m) :
    getDatosReporteMensual store mes
      = store.filter (fun s =>
          jsLeString (mes ++ "-01") s.fecha_solicitud &&
            jsLeString s.fecha_solicitud (mes ++ "-" ++ toString (daysInMonth y m))) ∧
    getDatosReporteMensual store "2024-02"
      = store.filter (fun s =>
          jsLeString "2024-02-01" s.fecha_solicitud &&
            jsLeString s.fecha_solicitud "2024-02-29") := by
  constructor
  · simp only [getDatosReporteMensual, hsplit, List.getD_cons_zero, List.getD_cons_succ,
      hy, hm, Option.getD_some]
  · have e0 : jsSplitDash "2024-02" = ["2024", "02"] := by decide
    have e1 : jsToNat "2024" = some 2024 := by decide
    have e2 : jsToNat "02" = some 2 := by decide
    have e3 : daysInMonth 2024 2 = 29 := by decide
    have e4 : ("2024-02" ++ "-" ++ toString 29 : String) = "2024-02-29" := by decide
    have e5 : ("2024-02" ++ "-01" : String) = "2024-02-01" := by decide
    simp only [getDatosReporteMensual, e0, List.getD_cons_zero, List.getD_cons_succ,
      e1, e2, Option.getD_some, e3, e4, e5]

theorem c6_witness :
    jsSplitDash "2024-02" = ["2024", "02"] ∧
    jsToNat "2024" = some 2024 ∧
    jsToNat "02" = some 2 ∧
    (getDatosReporteMensual [⟨1, "consulta", "2024-02-29", "V1", "C-001"⟩,
        ⟨2, "consulta", "2024-03-01", "V1", "C-001"⟩] "2024-02"
      = ([⟨1, "consulta", "2024-02-29", "V1", "C-001"⟩,
          ⟨2, "consulta", "2024-03-01", "V1", "C-001"⟩] : List Solicitud).filter (fun s =>
          jsLeString ("2024-02" ++ "-01") s.fecha_solicitud &&
            jsLeString s.fecha_solicitud ("2024-02" ++ "-" ++ toString (daysInMonth 2024 2))) ∧
    getDatosReporteMensual [⟨1, "consulta", "2024-02-29", "V1", "C-001"⟩,
        ⟨2, "consulta", "2024-03-01", "V1", "C-001"⟩] "2024-02"
      = ([⟨1, "consulta", "2024-02-29", "V1", "C-001"⟩,
          ⟨2, "consulta", "2024-03-01", "V1", "C-001"⟩] : List Solicitud).filter (fun s =>
          jsLeString "2024-02-01" s.fecha_solicitud &&
            jsLeString s.fecha_solicitud "2024-02-29")) :=
  ⟨by decide, by decide, by decide,
   c6_reporte_mensual [⟨1, "consulta", "2024-02-29", "V1", "C-001"⟩,
       ⟨2, "consulta", "2024-03-01", "V1", "C-001"⟩] "2024-02" "2024" "02" 2024 2
     (by decide) (by decide) (by decide)⟩

end Clinica

namespace Clinica

/-- A filtered list is non-empty exactly when some element satisfies the
predicate. -/
theorem not_isEmpty_filter_eq_any (p : α → Bool) (l : List α) :
    (!(l.filter p).isEmpty) = l.any p := by
  induction l with
  | nil => rfl
  | cons a t ih => cases h : p a <;> simp [List.filter_cons, h, ih]

/-- For the two request types of the declared interface the capacity key
is always configured, with a non-zero value, so the `|| 15` default of
the mock is inert. -/
theorem config_presente (tipo : String) (htipo : tipo = "consulta" ∨ tipo = "reembolso")
    (dia : Nat) :
    ∃ v, configuracion (claveLimite tipo dia) = some v ∧ jsOrDefault (some v) 15 = v := by
  rcases htipo with rfl | rfl
  · by_cases hW : dia = 3
    · subst hW
      exact ⟨10, by decide, by decide⟩
    · refine ⟨15, ?_, by decide⟩
      unfold claveLimite
      rw [if_neg (fun h => hW h.2)]
      decide
  · have hcl : claveLimite "reembolso" dia = "cupos_reembolso" := by
      unfold claveLimite
      rw [if_neg]
      · decide
      · rintro ⟨h1, _⟩
        exact (by decide : ¬("reembolso" = "consulta")) h1
    exact ⟨20, by rw [hcl]; decide, by decide⟩

/-- C7 amended: with the same ledger contents, the same serial counter,
a healthy backend and the database configuration table holding the
mock's constants, every observable store operation of the declared
interface returns the same result on the durable backend and on the
in-memory backend, the duplicate check provided that at most one
consulta-family record matches the queried patient and date — without
that proviso the duplicate checks genuinely diverge (see the
counterexample): `.maybeSingle()` errors on two rows. -/
theorem c7_backends_equivalentes (db : DbState) (st : MockState)
    (hsol : db.solicitudes = st.solicitudes)
    (hid : db.nextId = st.idCounter)
    (hfault : db.fault = false)
    (hcfg : ∀ k, db.config k = configuracion k)
    (tipo prefijo ced fechaString mesString : String) (fecha : CalDate) (datos : Solicitud)
    (htipo : tipo = "consulta" ∨ tipo = "reembolso")
    (hdup : (st.solicitudes.filter fun s =>
        s.cedula == ced && s.fecha_solicitud == isoOf fecha &&
          (["consulta", "ecor"] : List String).contains s.tipo_solicitud).length ≤ 1) :
    getCuposDisponiblesDb db tipo fecha = getCuposDisponibles st.solicitudes tipo fecha ∧
    getSiguienteNumeroTurnoDb db prefijo fecha
      = some (getSiguienteNumeroTurno st.solicitudes prefijo fecha) ∧
    checkExistingAppointmentDb db ced fecha = checkExistingAppointment st.solicitudes ced fecha ∧
    getDatosReporteDiarioDb db fechaString = getDatosReporteDiario st.solicitudes fechaString ∧
    getDatosReporteMensualDb db mesString = getDatosReporteMensual st.solicitudes mesString ∧
    (crearSolicitudDb db datos).1 = some (crearSolicitud st datos).1 ∧
    (crearSolicitudDb db datos).2.solicitudes = (crearSolicitud st datos).2.solicitudes ∧
    (crearSolicitudDb db datos).2.nextId = (crearSolicitud st datos).2.idCounter := by
  refine ⟨?_, ?_, ?_, ?_, ?_, ?_, ?_, ?_⟩
  · obtain ⟨v, hv, hjs⟩ := config_presente tipo htipo (getDay fecha)
    simp only [getCuposDisponiblesDb, getCuposDisponibles, hfault, hsol, hcfg, hv, hjs,
      Bool.false_eq_true, if_false]
  · simp only [getSiguienteNumeroTurnoDb, getSiguienteNumeroTurno, hfault, hsol,
      Bool.false_eq_true, if_false]
  · simp only [checkExistingAppointmentDb, checkExistingAppointment, hfault, hsol,
      Bool.false_eq_true, if_false]
    rw [find?_isSome_eq_any, if_neg (by omega)]
    exact not_isEmpty_filter_eq_any _ _
  · simp only [getDatosReporteDiarioDb, getDatosReporteDiario, hfault,
      Bool.false_eq_true, if_false, hsol]
  · simp only [getDatosReporteMensualDb, getDatosReporteMensual, hfault,
      Bool.false_eq_true, if_false, hsol]
  · simp only [crearSolicitudDb, insertSolicitudDb, crearSolicitud, hfault, hid,
      Bool.false_eq_true, if_false]
  · simp only [crearSolicitudDb, insertSolicitudDb, crearSolicitud, hfault, hid, hsol,
      Bool.false_eq_true, if_false]
  · simp only [crearSolicitudDb, insertSolicitudDb, crearSolicitud, hfault, hid,
      Bool.false_eq_true, if_false]

theorem c7_witness :
    (⟨[⟨1, "consulta", "2024-01-03", "V1", "C-001"⟩], configuracion, 2, false⟩ : DbState).solicitudes
        = (⟨[⟨1, "consulta", "2024-01-03", "V1", "C-001"⟩], 2⟩ : MockState).solicitudes ∧
    (∀ k, (⟨[⟨1, "consulta", "2024-01-03", "V1", "C-001"⟩], configuracion, 2, false⟩ : DbState).config k
        = configuracion k) ∧
    (getCuposDisponiblesDb ⟨[⟨1, "consulta", "2024-01-03", "V1", "C-001"⟩], configuracion, 2, false⟩
          "consulta" ⟨2024, 1, 3⟩
        = getCuposDisponibles (⟨[⟨1, "consulta", "2024-01-03", "V1", "C-001"⟩], 2⟩ : MockState).solicitudes
            "consulta" ⟨2024, 1, 3⟩ ∧
    getSiguienteNumeroTurnoDb ⟨[⟨1, "consulta", "2024-01-03", "V1", "C-001"⟩], configuracion, 2, false⟩
          "C" ⟨2024, 1, 3⟩
        = some (getSiguienteNumeroTurno
            (⟨[⟨1, "consulta", "2024-01-03", "V1", "C-001"⟩], 2⟩ : MockState).solicitudes "C" ⟨2024, 1, 3⟩) ∧
    checkExistingAppointmentDb ⟨[⟨1, "consulta", "2024-01-03", "V1", "C-001"⟩], configuracion, 2, false⟩
          "V1" ⟨2024, 1, 3⟩
        = checkExistingAppointment
            (⟨[⟨1, "consulta", "2024-01-03", "V1", "C-001"⟩], 2⟩ : MockState).solicitudes "V1" ⟨2024, 1, 3⟩ ∧
    getDatosReporteDiarioDb ⟨[⟨1, "consulta", "2024-01-03", "V1", "C-001"⟩], configuracion, 2, false⟩
          "2024-01-03"
        = getDatosReporteDiario
            (⟨[⟨1, "consulta", "2024-01-03", "V1", "C-001"⟩], 2⟩ : MockState).solicitudes "2024-01-03" ∧
    getDatosReporteMensualDb ⟨[⟨1, "consulta", "2024-01-03", "V1", "C-001"⟩], configuracion, 2, false⟩
          "2024-01"
        = getDatosReporteMensual
            (⟨[⟨1, "consulta", "2024-01-03", "V1", "C-001"⟩], 2⟩ : MockState).solicitudes "2024-01" ∧
    (crearSolicitudDb ⟨[⟨1, "consulta", "2024-01-03", "V1", "C-001"⟩], configuracion, 2, false⟩
          ⟨0, "ecor", "2024-01-03", "V2", "C-002"⟩).1
        = some (crearSolicitud (⟨[⟨1, "consulta", "2024-01-03", "V1", "C-001"⟩], 2⟩ : MockState)
            ⟨0, "ecor", "2024-01-03", "V2", "C-002"⟩).1 ∧
    (crearSolicitudDb ⟨[⟨1, "consulta", "2024-01-03", "V1", "C-001"⟩], configuracion, 2, false⟩
          ⟨0, "ecor", "2024-01-03", "V2", "C-002"⟩).2.solicitudes
        = (crearSolicitud (⟨[⟨1, "consulta", "2024-01-03", "V1", "C-001"⟩], 2⟩ : MockState)
            ⟨0, "ecor", "2024-01-03", "V2", "C-002"⟩).2.solicitudes ∧
    (crearSolicitudDb ⟨[⟨1, "consulta", "2024-01-03", "V1", "C-001"⟩], configuracion, 2, false⟩
          ⟨0, "ecor", "2024-01-03", "V2", "C-002"⟩).2.nextId
        = (crearSolicitud (⟨[⟨1, "consulta", "2024-01-03", "V1", "C-001"⟩], 2⟩ : MockState)
            ⟨0, "ecor", "2024-01-03", "V2", "C-002"⟩).2.idCounter) :=
  ⟨rfl, fun _ => rfl,
   c7_backends_equivalentes
     ⟨[⟨1, "consulta", "2024-01-03", "V1", "C-001"⟩], configuracion, 2, false⟩
     ⟨[⟨1, "consulta", "2024-01-03", "V1", "C-001"⟩], 2⟩
     rfl rfl rfl (fun _ => rfl)
     "consulta" "C" "V1" "2024-01-03" "2024-01" ⟨2024, 1, 3⟩ ⟨0, "ecor", "2024-01-03", "V2", "C-002"⟩
     (Or.inl rfl) (by decide)⟩

end Clinica

namespace Clinica

theorem daysInMonth_ge (y m : Nat) : 28 ≤ daysInMonth y m := by
  unfold daysInMonth
  split_ifs <;> norm_num

theorem prevDay_mk_gt (y m x : Nat) (h : 1 < x) : prevDay ⟨y, m, x⟩ = ⟨y, m, x - 1⟩ := by
  unfold prevDay
  rw [if_pos h]

theorem prevDay_mk_day_one (y m : Nat) (h : 1 < m) :
    prevDay ⟨y, m, 1⟩ = ⟨y, m - 1, daysInMonth y (m - 1)⟩ := by
  unfold prevDay
  rw [if_neg (by decide : ¬ (1 : Nat) < 1), if_pos h]

theorem prevDay_mk_jan_one (y : Nat) : prevDay ⟨y, 1, 1⟩ = ⟨y - 1, 12, 31⟩ := by
  unfold prevDay
  rw [if_neg (by decide : ¬ (1 : Nat) < 1), if_neg (by decide : ¬ (1 : Nat) < 1)]

theorem jsSetDateSub_one (d : CalDate) (hv : validDate d) : jsSetDateSub d 1 = prevDay d := by
  obtain ⟨y, m, day⟩ := d
  obtain ⟨hm1, hm2, hd1, hd2⟩ := hv
  dsimp only at hm1 hm2 hd1 hd2
  by_cases h1 : 1 < day
  · unfold jsSetDateSub
    rw [if_pos h1, prevDay_mk_gt y m day h1]
  · have hday : day = 1 := by omega
    subst hday
    by_cases h2 : 1 < m
    · unfold jsSetDateSub
      rw [if_neg (by decide : ¬ (1 : Nat) < 1), if_pos h2, prevDay_mk_day_one y m h2]
      all_goals dsimp only
      all_goals congr 1
    · have hm0 : m = 1 := by omega
      subst hm0
      unfold jsSetDateSub
      rw [if_neg (by decide : ¬ (1 : Nat) < 1), if_neg (by decide : ¬ (1 : Nat) < 1),
        prevDay_mk_jan_one y]
      all_goals dsimp only

theorem jsSetDateSub_three (d : CalDate) (hv : validDate d) :
    jsSetDateSub d 3 = prevDay (prevDay (prevDay d)) := by
  obtain ⟨y, m, day⟩ := d
  obtain ⟨hm1, hm2, hd1, hd2⟩ := hv
  dsimp only at hm1 hm2 hd1 hd2
  rcases Nat.lt_or_ge 3 day with h4 | h3
  · unfold jsSetDateSub
    rw [if_pos h4, prevDay_mk_gt y m day (by omega),
      prevDay_mk_gt y m (day - 1) (by omega), prevDay_mk_gt y m (day - 1 - 1) (by omega)]
    dsimp only
    congr 1
  · interval_cases day
    · -- day = 1
      by_cases h2 : 1 < m
      · have hdim := daysInMonth_ge y (m - 1)
        unfold jsSetDateSub
        rw [if_neg (by decide : ¬ (3 : Nat) < 1), if_pos h2, prevDay_mk_day_one y m h2,
          prevDay_mk_gt y (m - 1) (daysInMonth y (m - 1)) (by omega),
          prevDay_mk_gt y (m - 1) (daysInMonth y (m - 1) - 1) (by omega)]
        all_goals dsimp only
        all_goals congr 1
      · have hm0 : m = 1 := by omega
        subst hm0
        unfold jsSetDateSub
        rw [if_neg (by decide : ¬ (3 : Nat) < 1), if_neg (by decide : ¬ (1 : Nat) < 1),
          prevDay_mk_jan_one y, prevDay_mk_gt (y - 1) 12 31 (by omega),
          prevDay_mk_gt (y - 1) 12 (31 - 1) (by omega)]
        all_goals dsimp only
    · -- day = 2
      by_cases h2 : 1 < m
      · have hdim := daysInMonth_ge y (m - 1)
        unfold jsSetDateSub
        rw [if_neg (by decide : ¬ (3 : Nat) < 2), if_pos h2, prevDay_mk_gt y m 2 (by omega),
          prevDay_mk_day_one y m h2,
          prevDay_mk_gt y (m - 1) (daysInMonth y (m - 1)) (by omega)]
        all_goals dsimp only
        all_goals congr 1
      · have hm0 : m = 1 := by omega
        subst hm0
        unfold jsSetDateSub
        rw [if_neg (by decide : ¬ (3 : Nat) < 2), if_neg (by decide : ¬ (1 : Nat) < 1),
          prevDay_mk_gt y 1 2 (by omega), prevDay_mk_jan_one y,
          prevDay_mk_gt (y - 1) 12 31 (by omega)]
        all_goals dsimp only
    · -- day = 3
      by_cases h2 : 1 < m
      · unfold jsSetDateSub
        rw [if_neg (by decide : ¬ (3 : Nat) < 3), if_pos h2, prevDay_mk_gt y m 3 (by omega),
          prevDay_mk_gt y m (3 - 1) (by omega), prevDay_mk_day_one y m h2]
        all_goals dsimp only
        all_goals congr 1
      · have hm0 : m = 1 := by omega
        subst hm0
        unfold jsSetDateSub
        rw [if_neg (by decide : ¬ (3 : Nat) < 3), if_neg (by decide : ¬ (1 : Nat) < 1),
          prevDay_mk_gt y 1 3 (by omega), prevDay_mk_gt y 1 (3 - 1) (by omega),
          prevDay_mk_jan_one y]
        all_goals dsimp only

end Clinica

namespace Clinica

theorem daysBeforeMonth_step (y m : Nat) (h1 : 2 ≤ m) (h2 : m ≤ 12) :
    daysBeforeMonth y (m - 1) + daysInMonth y (m - 1) = daysBeforeMonth y m := by
  interval_cases m
  all_goals simp [daysBeforeMonth, daysInMonth]
  all_goals omega

theorem isLeap_iff (y : Nat) :
    isLeap y = true ↔ ((y % 4 = 0 ∧ y % 100 ≠ 0) ∨ y % 400 = 0) := by
  unfold isLeap
  simp [Bool.or_eq_true, Bool.and_eq_true, beq_iff_eq, bne_iff_ne]

theorem rataDie_prevDay (d : CalDate) (hv : validDate d) (hy : 2 ≤ d.year) :
    rataDie (prevDay d) + 1 = rataDie d := by
  obtain ⟨y, m, day⟩ := d
  obtain ⟨hm1, hm2, hd1, hd2⟩ := hv
  dsimp only at hm1 hm2 hd1 hd2 hy
  by_cases h1 : 1 < day
  · rw [prevDay_mk_gt y m day h1]
    unfold rataDie
    dsimp only
    omega
  · have hday : day = 1 := by omega
    subst hday
    by_cases h2 : 1 < m
    · rw [prevDay_mk_day_one y m h2]
      have hstep := daysBeforeMonth_step y m (by omega) hm2
      unfold rataDie
      dsimp only
      omega
    · have hm0 : m = 1 := by omega
      subst hm0
      rw [prevDay_mk_jan_one y]
      have hfeb : daysBeforeMonth (y - 1) 12 = 306 + daysInMonth (y - 1) 2 := rfl
      have hdbm1 : daysBeforeMonth y 1 = 0 := rfl
      unfold rataDie
      dsimp only
      rw [hfeb, hdbm1]
      cases hb : isLeap (y - 1) with
      | false =>
        have hnb : ¬(((y - 1) % 4 = 0 ∧ (y - 1) % 100 ≠ 0) ∨ (y - 1) % 400 = 0) := by
          rw [← isLeap_iff, hb]
          simp
        have h28 : daysInMonth (y - 1) 2 = 28 := by simp [daysInMonth, hb]
        rw [h28]
        omega
      | true =>
        have hb' := (isLeap_iff (y - 1)).mp hb
        have h29 : daysInMonth (y - 1) 2 = 29 := by simp [daysInMonth, hb]
        rw [h29]
        omega

theorem validDate_prevDay (d : CalDate) (hv : validDate d) : validDate (prevDay d) := by
  obtain ⟨y, m, day⟩ := d
  obtain ⟨hm1, hm2, hd1, hd2⟩ := hv
  dsimp only at hm1 hm2 hd1 hd2
  by_cases h1 : 1 < day
  · rw [prevDay_mk_gt y m day h1]
    unfold validDate
    dsimp only
    omega
  · have hday : day = 1 := by omega
    subst hday
    by_cases h2 : 1 < m
    · rw [prevDay_mk_day_one y m h2]
      unfold validDate
      dsimp only
      have := daysInMonth_ge y (m - 1)
      omega
    · have hm0 : m = 1 := by omega
      subst hm0
      rw [prevDay_mk_jan_one y]
      unfold validDate
      dsimp only
      have h12 : daysInMonth (y - 1) 12 = 31 := rfl
      omega

theorem prevDay_year_le (d : CalDate) :
    d.year - 1 ≤ (prevDay d).year ∧ (prevDay d).year ≤ d.year := by
  unfold prevDay
  split_ifs <;> dsimp only <;> omega

theorem prevDay_prevDay_year (d : CalDate) (hv : validDate d) :
    d.year - 1 ≤ (prevDay (prevDay d)).year := by
  obtain ⟨y, m, day⟩ := d
  obtain ⟨hm1, hm2, hd1, hd2⟩ := hv
  dsimp only at hm1 hm2 hd1 hd2 ⊢
  by_cases h1 : 1 < day
  · rw [prevDay_mk_gt y m day h1]
    have h := prevDay_year_le ⟨y, m, day - 1⟩
    dsimp only at h
    omega
  · have hday : day = 1 := by omega
    subst hday
    by_cases h2 : 1 < m
    · rw [prevDay_mk_day_one y m h2]
      have hdim := daysInMonth_ge y (m - 1)
      rw [prevDay_mk_gt y (m - 1) (daysInMonth y (m - 1)) (by omega)]
      dsimp only
      omega
    · have hm0 : m = 1 := by omega
      subst hm0
      rw [prevDay_mk_jan_one y, prevDay_mk_gt (y - 1) 12 31 (by omega)]

theorem rataDie_ge (d : CalDate) (hy : 2 ≤ d.year) : 365 ≤ rataDie d := by
  unfold rataDie
  have h365 : 365 ≤ 365 * (d.year - 1) := by omega
  omega

/-- C9: `getReportDateString` renders, in `YYYY-MM-DD` form, the date
exactly 3 calendar days earlier (three `prevDay` steps) when the trigger
date is a Monday — which lands on the preceding Friday (`getDay = 5`) —
and the immediately preceding calendar day on every other weekday. -/
theorem c9_fecha_del_reporte (d : CalDate) (hv : validDate d) (hy : 3 ≤ d.year) :
    getReportDateString d
      = isoOf (if getDay d = 1 then prevDay (prevDay (prevDay d)) else prevDay d) ∧
    (getDay d = 1 → getDay (prevDay (prevDay (prevDay d))) = 5) := by
  constructor
  · simp only [getReportDateString]
    by_cases hMon : getDay d = 1
    · rw [if_pos hMon, if_pos hMon, jsSetDateSub_three d hv]
    · rw [if_neg hMon, if_neg hMon, jsSetDateSub_one d hv]
  · intro hMon
    have hv1 := validDate_prevDay d hv
    have hv2 := validDate_prevDay _ hv1
    have hyle1 := prevDay_year_le d
    have hyle2 := prevDay_prevDay_year d hv
    have r1 := rataDie_prevDay d hv (by omega)
    have r2 := rataDie_prevDay (prevDay d) hv1 (by omega)
    have r3 := rataDie_prevDay (prevDay (prevDay d)) hv2 (by omega)
    have hlow := rataDie_ge d (by omega)
    unfold getDay at hMon ⊢
    omega

theorem c9_witness :
    validDate (⟨2024, 1, 1⟩ : CalDate) ∧ 3 ≤ (⟨2024, 1, 1⟩ : CalDate).year ∧
    (getReportDateString ⟨2024, 1, 1⟩
        = isoOf (if getDay ⟨2024, 1, 1⟩ = 1 then prevDay (prevDay (prevDay ⟨2024, 1, 1⟩))
            else prevDay ⟨2024, 1, 1⟩) ∧
    (getDay ⟨2024, 1, 1⟩ = 1 → getDay (prevDay (prevDay (prevDay ⟨2024, 1, 1⟩))) = 5)) :=
  ⟨by decide, by decide, c9_fecha_del_reporte ⟨2024, 1, 1⟩ (by decide) (by decide)⟩

end Clinica

namespace Clinica

/-- C4 counterexample: for the durable implementation cited by the
claim the "if" direction fails — this store holds a consulta record for
the patient and date (indeed two of them), yet `checkExistingAppointment`
returns false, because `.maybeSingle()` errors on more than one row and
the catch converts the error to false. -/
theorem c4_counterexample :
    ((⟨1, "consulta", "2024-01-03", "V1", "C-001"⟩ : Solicitud)
        ∈ (⟨[⟨1, "consulta", "2024-01-03", "V1", "C-001"⟩,
              ⟨2, "consulta", "2024-01-03", "V1", "C-002"⟩],
            configuracion, 3, false⟩ : DbState).solicitudes) ∧
    (⟨1, "consulta", "2024-01-03", "V1", "C-001"⟩ : Solicitud).cedula = "V1" ∧
    (⟨1, "consulta", "2024-01-03", "V1", "C-001"⟩ : Solicitud).fecha_solicitud
        = isoOf ⟨2024, 1, 3⟩ ∧
    (⟨1, "consulta", "2024-01-03", "V1", "C-001"⟩ : Solicitud).tipo_solicitud = "consulta" ∧
    checkExistingAppointmentDb
        ⟨[⟨1, "consulta", "2024-01-03", "V1", "C-001"⟩,
          ⟨2, "consulta", "2024-01-03", "V1", "C-002"⟩],
          configuracion, 3, false⟩ "V1" ⟨2024, 1, 3⟩ = false :=
  ⟨by decide, by decide, by decide, by decide, by decide⟩

/-- C4 amended: the in-memory `checkExistingAppointment` returns true
iff the store holds a record with that cedula, that requestDate, and
type consulta or ecor — so reimbursement and emergency records for the
same patient and date never make it true; the durable implementation
returns the same iff under a healthy backend whenever at most one row
matches, while with two or more matching rows `.maybeSingle()` errors
and it returns false. -/
theorem c4_amended (store : List Solicitud) (db : DbState) (ced : String) (fecha : CalDate)
    (hf : db.fault = false)
    (hdup : (db.solicitudes.filter fun s =>
        s.cedula == ced && s.fecha_solicitud == isoOf fecha &&
          (["consulta", "ecor"] : List String).contains s.tipo_solicitud).length ≤ 1) :
    (checkExistingAppointment store ced fecha = true ↔
      ∃ s ∈ store, s.cedula = ced ∧ s.fecha_solicitud = isoOf fecha ∧
        (s.tipo_solicitud = "consulta" ∨ s.tipo_solicitud = "ecor")) ∧
    (checkExistingAppointmentDb db ced fecha = true ↔
      ∃ s ∈ db.solicitudes, s.cedula = ced ∧ s.fecha_solicitud = isoOf fecha ∧
        (s.tipo_solicitud = "consulta" ∨ s.tipo_solicitud = "ecor")) := by
  refine ⟨checkExisting_mock_iff store ced fecha, ?_⟩
  simp only [checkExistingAppointmentDb, hf, Bool.false_eq_true, if_false]
  rw [if_neg (by omega), not_isEmpty_filter_eq_any, List.any_eq_true]
  exact exists_congr fun s => and_congr_right fun _ => existingPred_iff ced (isoOf fecha) s

theorem c4_amended_witness :
    (⟨[⟨1, "ecor", "2024-01-03", "V1", "C-001"⟩], configuracion, 2, false⟩ : DbState).fault
        = false ∧
    ((⟨[⟨1, "ecor", "2024-01-03", "V1", "C-001"⟩], configuracion, 2, false⟩ : DbState).solicitudes.filter
        fun s => s.cedula == "V1" && s.fecha_solicitud == isoOf ⟨2024, 1, 3⟩ &&
          (["consulta", "ecor"] : List String).contains s.tipo_solicitud).length ≤ 1 ∧
    ((checkExistingAppointment [⟨1, "ecor", "2024-01-03", "V1", "C-001"⟩] "V1" ⟨2024, 1, 3⟩ = true ↔
      ∃ s ∈ [(⟨1, "ecor", "2024-01-03", "V1", "C-001"⟩ : Solicitud)], s.cedula = "V1" ∧
        s.fecha_solicitud = isoOf ⟨2024, 1, 3⟩ ∧
        (s.tipo_solicitud = "consulta" ∨ s.tipo_solicitud = "ecor")) ∧
    (checkExistingAppointmentDb
        ⟨[⟨1, "ecor", "2024-01-03", "V1", "C-001"⟩], configuracion, 2, false⟩ "V1" ⟨2024, 1, 3⟩ = true ↔
      ∃ s ∈ (⟨[⟨1, "ecor", "2024-01-03", "V1", "C-001"⟩], configuracion, 2, false⟩ : DbState).solicitudes,
        s.cedula = "V1" ∧ s.fecha_solicitud = isoOf ⟨2024, 1, 3⟩ ∧
        (s.tipo_solicitud = "consulta" ∨ s.tipo_solicitud = "ecor"))) :=
  ⟨rfl, by decide,
   c4_amended [⟨1, "ecor", "2024-01-03", "V1", "C-001"⟩]
     ⟨[⟨1, "ecor", "2024-01-03", "V1", "C-001"⟩], configuracion, 2, false⟩
     "V1" ⟨2024, 1, 3⟩ rfl (by decide)⟩

/-- C7 counterexample: an identical sequence of store operations — two
consulta inserts for one patient and date, starting from empty backends
— leaves both ledgers identical, yet the subsequent duplicate check
returns false on the durable backend (`.maybeSingle()` errors on two
rows, the catch returns false) and true on the in-memory backend, so
the two backends do not produce identical observable results over every
identical operation sequence. -/
theorem c7_counterexample :
    (crearSolicitudDb (crearSolicitudDb ⟨[], configuracion, 1, false⟩
          ⟨0, "consulta", "2024-01-03", "V1", "C-001"⟩).2
          ⟨0, "consulta", "2024-01-03", "V1", "C-002"⟩).2.solicitudes
      = (crearSolicitud (crearSolicitud ⟨[], 1⟩
          ⟨0, "consulta", "2024-01-03", "V1", "C-001"⟩).2
          ⟨0, "consulta", "2024-01-03", "V1", "C-002"⟩).2.solicitudes ∧
    checkExistingAppointmentDb (crearSolicitudDb (crearSolicitudDb ⟨[], configuracion, 1, false⟩
          ⟨0, "consulta", "2024-01-03", "V1", "C-001"⟩).2
          ⟨0, "consulta", "2024-01-03", "V1", "C-002"⟩).2 "V1" ⟨2024, 1, 3⟩ = false ∧
    checkExistingAppointment (crearSolicitud (crearSolicitud ⟨[], 1⟩
          ⟨0, "consulta", "2024-01-03", "V1", "C-001"⟩).2
          ⟨0, "consulta", "2024-01-03", "V1", "C-002"⟩).2.solicitudes "V1" ⟨2024, 1, 3⟩ = true :=
  ⟨by decide, by decide, by decide⟩

end Clinica
